import Mathlib

/-!
Shallow embedding of the vispy `oogl` texture module
(`src/vispy/oogl/texture.py` together with the `push_enable` / `pop_enable`
helpers of `src/vispy/oogl/__init__.py`).

Modelling conventions:

* numpy arrays are modelled by `NDArr`: a dtype tag, a shape and a flat
  list of rational values.  Floating-point rounding is abstracted away
  (casts keep the rational values); no verified property depends on it.
* in-place numpy operations are modelled through `CArr`, which carries the
  local variable `data`, the current contents of the caller's array, and
  a flag telling whether the two still alias.  An in-place operation
  performed while the arrays alias also rewrites the caller's array;
  `astype` and `copy` allocate a fresh buffer and drop the alias.
* fallible Python code returns `Except` or pairs a result state with an
  optional error.  A Python method that raises after mutating attributes
  returns the mutated state together with the error, exactly as the
  Python object would be left.
* the OpenGL driver is an external collaborator.  Every call the module
  issues is recorded in order as a `GLCall` value; driver-provided
  behaviour (`ext_available`, `glIsTexture`, `glGenTextures`) is a
  `GLEnv` parameter.  `ext_available` is stubbed to `True` in the source
  ("for now"); following the spec's external-collaborator interface it is
  kept as a boolean-valued parameter here, which also covers the stub.
-/

namespace VispyTexture

/-- Numeric values of the OpenGL enumeration constants the module uses, so
that the shared enable queue can be keyed by plain GL enums exactly as the
source keys it. -/
def GL_TEXTURE_2D : Nat := 3553

/-- GL_TEXTURE_3D (extension constant `gl.ext.GL_TEXTURE_3D`). -/
def GL_TEXTURE_3D : Nat := 32879

/-- GL_TEXTURE0, base of the texture-unit enumeration. -/
def GL_TEXTURE0 : Int := 33984

/-- GL_UNPACK_ALIGNMENT pixel-store parameter. -/
def GL_UNPACK_ALIGNMENT : Nat := 3317

/-- The pixel formats `set_data` / `set_storage` accept (besides `None`). -/
inductive TexFormat where
  | rgb
  | rgba
  | luminance
  | luminanceAlpha
  | alpha
  deriving DecidableEq, Repr

/-- Driver calls the module can issue, recorded in order of emission. -/
inductive GLCall where
  | enable (e : Nat)
  | disable (e : Nat)
  | activeTexture (u : Int)
  | bindTexture (target : Nat) (h : Int)
  | genTextures
  | deleteTextures (h : Int)
  | texImage (target : Nat) (level : Int) (format : TexFormat) (size : List Int)
  | texSubImage (target : Nat) (level : Int) (offset : List Int) (size : List Int) (format : TexFormat)
  | texParameter (target : Nat) (param : Nat) (value : Int)
  | pixelStorei (pname : Nat) (value : Nat)
  | isTexture (h : Int)
  deriving DecidableEq, Repr

/-- Pointwise update of the enable queue (the module stores the counters in
the dict `ENABLE_QUEUE`; a missing key reads as 0, so the queue is modelled
as a total function with explicit updates). -/
def qset (q : Nat → Int) (k : Nat) (v : Int) : Nat → Int :=
  fun j => if j = k then v else q j

/-- Embedding of `push_enable` (`__init__.py` lines 51-59): read the
counter for `enum` (defaulting to 0), call `glEnable` only when it is 0,
then store `cur + 1`. -/
def push_enable (q : Nat → Int) (enum : Nat) : (Nat → Int) × List GLCall :=
  let cur := q enum
  let calls := if cur = 0 then [GLCall.enable enum] else []
  (qset q enum (cur + 1), calls)

/-- Embedding of `pop_enable` (`__init__.py` lines 62-70): read the
counter, call `glDisable` only when it is exactly 1, then store
`max 0 (cur - 1)` (clamped at zero). -/
def pop_enable (q : Nat → Int) (enum : Nat) : (Nat → Int) × List GLCall :=
  let cur := q enum
  let calls := if cur = 1 then [GLCall.disable enum] else []
  (qset q enum (max 0 (cur - 1)), calls)

/-- A sequence element for exercising the shared enable queue. -/
inductive QOp where
  | push (e : Nat)
  | pop (e : Nat)
  deriving DecidableEq, Repr

/-- Apply one queue operation (dropping the emitted calls). -/
def applyOp (q : Nat → Int) : QOp → (Nat → Int)
  | QOp.push e => (push_enable q e).1
  | QOp.pop e => (pop_enable q e).1

/-- Apply a whole sequence of queue operations. -/
def applyOps (ops : List QOp) (q : Nat → Int) : Nat → Int :=
  ops.foldl applyOp q

/-- N successive `push_enable` calls on the same enum, collecting calls. -/
def pushN : Nat → (Nat → Int) → Nat → (Nat → Int) × List GLCall
  | 0, q, _ => (q, [])
  | Nat.succ n, q, e =>
    let r1 := push_enable q e
    let r2 := pushN n r1.1 e
    (r2.1, r1.2 ++ r2.2)

/-- N successive `pop_enable` calls on the same enum, collecting calls. -/
def popN : Nat → (Nat → Int) → Nat → (Nat → Int) × List GLCall
  | 0, q, _ => (q, [])
  | Nat.succ n, q, e =>
    let r1 := pop_enable q e
    let r2 := popN n r1.1 e
    (r2.1, r1.2 ++ r2.2)

/-- The numpy dtypes the conversion routine can meet.  `bool8` stands for
numpy's `bool` dtype. -/
inductive Dtype where
  | bool8
  | uint8
  | uint16
  | uint32
  | uint64
  | int8
  | int16
  | int32
  | int64
  | float16
  | float32
  | float64
  deriving DecidableEq, Repr

/-- The numpy `dtype.name` string of each dtype (the source dispatches on
these names). -/
def Dtype.name : Dtype → String
  | .bool8 => "bool"
  | .uint8 => "uint8"
  | .uint16 => "uint16"
  | .uint32 => "uint32"
  | .uint64 => "uint64"
  | .int8 => "int8"
  | .int16 => "int16"
  | .int32 => "int32"
  | .int64 => "int64"
  | .float16 => "float16"
  | .float32 => "float32"
  | .float64 => "float64"

/-- Bit width of each dtype, the value the source parses out of the dtype
name with `int(data.dtype.name[3:])` respectively `int(...[4:])`. -/
def Dtype.bits : Dtype → Nat
  | .bool8 => 8
  | .uint8 => 8
  | .uint16 => 16
  | .uint32 => 32
  | .uint64 => 64
  | .int8 => 8
  | .int16 => 16
  | .int32 => 32
  | .int64 => 64
  | .float16 => 16
  | .float32 => 32
  | .float64 => 64

/-- A numpy array value: dtype tag, shape, flat contents. -/
structure NDArr where
  dtype : Dtype
  shape : List Int
  vals : List ℚ
  deriving DecidableEq, Repr

/-- numpy `astype`: new buffer with the given dtype (value rounding is
abstracted). -/
def NDArr.astype (a : NDArr) (dt : Dtype) : NDArr :=
  { a with dtype := dt }

/-- numpy `copy`: fresh buffer, identical value. -/
def NDArr.copy (a : NDArr) : NDArr := a

/-- In-place `data -= x`. -/
def NDArr.subScalar (a : NDArr) (x : ℚ) : NDArr :=
  { a with vals := a.vals.map (fun v => v - x) }

/-- In-place `data *= x`. -/
def NDArr.mulScalar (a : NDArr) (x : ℚ) : NDArr :=
  { a with vals := a.vals.map (fun v => v * x) }

/-- In-place `data[data < x] = x`. -/
def NDArr.clipBelow (a : NDArr) (x : ℚ) : NDArr :=
  { a with vals := a.vals.map (fun v => if v < x then x else v) }

/-- In-place `data[data > x] = x`. -/
def NDArr.clipAbove (a : NDArr) (x : ℚ) : NDArr :=
  { a with vals := a.vals.map (fun v => if v > x then x else v) }

/-- Contrast limits: a `(min, max)` pair. -/
abbrev Clim := ℚ × ℚ

/-- The local variable `data` of `convert_data` together with the caller's
array and the aliasing relation between the two. -/
structure CArr where
  cur : NDArr
  caller : NDArr
  aliased : Bool
  deriving DecidableEq, Repr

/-- An in-place numpy operation: it rewrites the local array and, when the
local array still aliases the caller's, the caller's array too. -/
def CArr.inplace (c : CArr) (f : NDArr → NDArr) : CArr :=
  { cur := f c.cur
    caller := if c.aliased then f c.caller else c.caller
    aliased := c.aliased }

/-- An allocating numpy operation (`astype`, `copy`): the local variable is
rebound to a fresh buffer, breaking the alias with the caller's array. -/
def CArr.freshMap (c : CArr) (f : NDArr → NDArr) : CArr :=
  { cur := f c.cur
    caller := c.caller
    aliased := false }

/-- Errors `convert_data` can raise: the `ZeroDivisionError` from
`1.0 / (clim[1] - clim[0])` when the span is zero, and the final
`RuntimeError('Error converting data type. This should not happen.')`.
The dtype universe `Dtype` covers every branch of the source's elif
chain, so the `RuntimeError('Could not convert data type ...')` branch
for unrecognized dtypes has no representable input here. -/
inductive ConvErr where
  | zeroDivision
  | badFinal
  deriving DecidableEq, Repr

/-- Signed-integer arm of the first section of `convert_data`
(texture.py lines 577-583): `max = 2**bits; clim = -max//2, max//2-1`
when no limits were given (the floor divisions are exact because
`2**bits` is even), then `data = data.astype(np.float32)`. -/
def convPrepareInt (c : CArr) (clim : Option Clim) (bits : Nat) :
    CArr × Option Clim × Bool :=
  let clim2 := match clim with
    | none => some (-((2 : ℚ) ^ bits) / 2, ((2 : ℚ) ^ bits) / 2 - 1)
    | some cl => some cl
  (c.freshMap (NDArr.astype · .float32), clim2, true)

/-- Unsigned-integer arm of the first section of `convert_data`
(texture.py lines 584-590): `max = 2**bits; clim = 0, max//2` when no
limits were given, then `data = data.astype(np.float32)`.  Note that
`uint8` never reaches this arm: it is caught by its dedicated branch
earlier in the chain. -/
def convPrepareUint (c : CArr) (clim : Option Clim) (bits : Nat) :
    CArr × Option Clim × Bool :=
  let clim2 := match clim with
    | none => some (0, ((2 : ℚ) ^ bits) / 2)
    | some cl => some cl
  (c.freshMap (NDArr.astype · .float32), clim2, true)

/-- First section of `convert_data` (texture.py lines 549-592): determine
clim if not given; copy or cast to float32 where the following in-place
operations would otherwise mutate the caller's array.  The source
dispatches on `data.dtype.name` through an elif chain; the match arms
below are ordered and grouped exactly as that chain (in particular
`uint8` is handled by its own branch before the generic
`startswith('uint')` branch, and `'float' in name` only remains for
`float64` once `float16`/`float32` were handled).  The third component is
the source's `CONVERTING` flag (computed but only used by commented-out
code). -/
def convPrepare (F16sup F32sup : Bool) (c : CArr) (clim : Option Clim) :
    CArr × Option Clim × Bool :=
  match c.cur.dtype with
  | .bool8 => (c.freshMap (NDArr.astype · .uint8), none, false)
  | .uint8 =>
    match clim with
    | some _ => (c.freshMap (NDArr.astype · .float32), clim, false)
    | none => (c, clim, false)
  | .float16 =>
    match clim with
    | some _ => (c.freshMap NDArr.copy, clim, false)
    | none =>
      if F16sup = false then (c.freshMap NDArr.copy, clim, true)
      else (c, clim, false)
  | .float32 =>
    match clim with
    | some _ => (c.freshMap NDArr.copy, clim, false)
    | none =>
      if F32sup = false then (c.freshMap NDArr.copy, clim, true)
      else (c, clim, false)
  | .float64 => (c.freshMap (NDArr.astype · .float32), clim, true)
  | .int8 => convPrepareInt c clim 8
  | .int16 => convPrepareInt c clim 16
  | .int32 => convPrepareInt c clim 32
  | .int64 => convPrepareInt c clim 64
  | .uint16 => convPrepareUint c clim 16
  | .uint32 => convPrepareUint c clim 32
  | .uint64 => convPrepareUint c clim 64

/-- Second section of `convert_data` (texture.py lines 594-601): if limits
are present, in place subtract `clim[0]` unless it is exactly 0, then in
place multiply by `1.0 / (clim[1] - clim[0])` unless the span is exactly
1; a zero span raises `ZeroDivisionError`.  The error carries the
caller's array as it stands at raise time. -/
def applyClim (c0 : CArr) (clim : Option Clim) : Except (ConvErr × NDArr) CArr :=
  match clim with
  | none => .ok c0
  | some (lo, hi) =>
    let c := if lo ≠ 0 then c0.inplace (NDArr.subScalar · lo) else c0
    if hi - lo ≠ 1 then
      if hi - lo = 0 then .error (.zeroDivision, c.caller)
      else .ok (c.inplace (NDArr.mulScalar · (1 / (hi - lo))))
    else .ok c

/-- Third section of `convert_data` (texture.py lines 606-620): uint8
passes through; float16/float32 pass through when the matching GL
capability is available; otherwise a float16/float32 array is in place
rescaled by 256, clipped to [0,256] and cast down to uint8; any other
dtype is the unreachable `RuntimeError` branch. -/
def convFinalize (F16sup F32sup : Bool) (c : CArr) : Except (ConvErr × NDArr) CArr :=
  if c.cur.dtype = .uint8 then .ok c
  else if c.cur.dtype = .float16 ∧ F16sup = true then .ok c
  else if c.cur.dtype = .float32 ∧ F32sup = true then .ok c
  else if c.cur.dtype = .float16 ∨ c.cur.dtype = .float32 then
    let c1 := c.inplace (NDArr.mulScalar · 256)
    let c2 := c1.inplace (NDArr.clipBelow · 0)
    let c3 := c2.inplace (NDArr.clipAbove · 256)
    .ok (c3.freshMap (NDArr.astype · .uint8))
  else .error (.badFinal, c.caller)

/-- Composition of the second and third sections of `convert_data`: the
limit application feeding into the final materialization (an exception
from the limit application propagates). -/
def convTail (F16sup F32sup : Bool) (r : Except (ConvErr × NDArr) CArr) :
    Except (ConvErr × NDArr) CArr :=
  match r with
  | .error e => .error e
  | .ok c => convFinalize F16sup F32sup c

/-- Embedding of `convert_data` (texture.py lines 539-623).  `F16sup` and
`F32sup` are `ext_available('texture_half_float')` and
`ext_available('texture_float')`.  The result carries both the returned
array (`cur`), the caller's array after the call (`caller`), and whether
the returned array is the caller's own array (`aliased`). -/
def convert_data (F16sup F32sup : Bool) (data : NDArr) (clim : Option Clim) :
    Except (ConvErr × NDArr) CArr :=
  let r := convPrepare F16sup F32sup ⟨data, data, true⟩ clim
  convTail F16sup F32sup (applyClim r.1 r.2.1)

/-- Contents of the caller's array after a `convert_data` call, whether
the call returned normally or raised. -/
def exCaller (r : Except (ConvErr × NDArr) CArr) : NDArr :=
  match r with
  | .ok c => c.caller
  | .error e => e.2

/-- Contents of the caller's array after `convert_data`, as a function of
the inputs. -/
def convCallerAfter (F16sup F32sup : Bool) (data : NDArr) (clim : Option Clim) : NDArr :=
  exCaller (convert_data F16sup F32sup data clim)

/-- Texture target (`gl.GL_TEXTURE_2D` or `gl.ext.GL_TEXTURE_3D`; the
constructor rejects anything else, and the cube-map class is
unimplemented). -/
inductive Target where
  | tex2D
  | tex3D
  deriving DecidableEq, Repr

/-- The GL enum value of a target (used to key the shared enable queue
and as first argument of the GL calls). -/
def Target.toGL : Target → Nat
  | .tex2D => GL_TEXTURE_2D
  | .tex3D => GL_TEXTURE_3D

/-- The dimensionality lookup `MAP = {GL_TEXTURE_2D: 2, GL_TEXTURE_3D: 3};
ndim = MAP.get(self._target, 0)` (the default 0 is unreachable because the
constructor admits only the two targets). -/
def ndimOf : Target → Nat
  | .tex2D => 2
  | .tex3D => 3

/-- Errors raised by the texture layer: Python `assert` failures,
`ValueError` / `RuntimeError` with their message, and exceptions
propagating out of `convert_data`. -/
inductive PyErr where
  | assertionError
  | valueError (msg : String)
  | runtimeError (msg : String)
  | conv (e : ConvErr)
  deriving DecidableEq, Repr

/-- Embedding of `get_format` (texture.py lines 499-536): derive the
pixel format from the shape's trailing dimension, per target. -/
def get_format (shape : List Int) (target : Target) : Except PyErr TexFormat :=
  match target with
  | .tex2D =>
    if shape.length = 2 then .ok .luminance
    else if shape.length = 3 ∧ shape[2]? = some 1 then .ok .luminance
    else if shape.length = 3 ∧ shape[2]? = some 2 then .ok .luminanceAlpha
    else if shape.length = 3 ∧ shape[2]? = some 3 then .ok .rgb
    else if shape.length = 3 ∧ shape[2]? = some 4 then .ok .rgba
    else .error (.valueError "Cannot determine format: data of invalid shape.")
  | .tex3D =>
    if shape.length = 3 then .ok .luminance
    else if shape.length = 4 ∧ shape[3]? = some 1 then .ok .luminance
    else if shape.length = 4 ∧ shape[3]? = some 2 then .ok .luminanceAlpha
    else if shape.length = 4 ∧ shape[3]? = some 3 then .ok .rgb
    else if shape.length = 4 ∧ shape[3]? = some 4 then .ok .rgba
    else .error (.valueError "Cannot determine format: data of invalid shape.")

/-- The tuple stored in `self._pending_data` by `set_data` / `set_storage`
and consumed by the next activation. -/
structure PendingData where
  data : Option NDArr
  offset : Option (List Int)
  level : Int
  format : Option TexFormat
  clim : Option Clim
  deriving DecidableEq, Repr

/-- The mutable attributes of a `Texture` object. -/
structure TexState where
  target : Target
  handle : Int
  unit : Int
  pending : Option PendingData
  texShape : Option (List Int)
  texParams : List (Nat × Int)
  pendingParams : List (Nat × Int)
  deriving DecidableEq, Repr

/-- Insert-or-overwrite on a Python dict modelled as an insertion-ordered
association list. -/
def dictSet (d : List (Nat × Int)) (k : Nat) (v : Int) : List (Nat × Int) :=
  if d.any (fun p => p.1 == k) then d.map (fun p => if p.1 == k then (k, v) else p)
  else d ++ [(k, v)]

/-- Embedding of `Texture.set_parameter` (texture.py lines 242-257) for a
parameter already given as a GL enum (the string-alias canonicalization is
not exercised by any verified property): record the value in both the
pending diff and the full applied set. -/
def set_parameter (st : TexState) (param : Nat) (value : Int) : TexState :=
  { st with pendingParams := dictSet st.pendingParams param value
            texParams := dictSet st.texParams param value }

/-- The error-reset step at the top of `set_data` and `set_storage`
(texture.py lines 288-291 and 346-349): a negative handle is reset to 0
and the recorded shape is cleared. -/
def resetIfErrored (st : TexState) : TexState :=
  if st.handle < 0 then { st with handle := 0, texShape := none } else st

/-- Embedding of `Texture.set_data` (texture.py lines 260-322).  Returns
the object state after the call together with the raised error, if any;
Python leaves the attribute mutations made before a raise in place, so an
error is paired with the state as mutated so far. -/
def set_data (st0 : TexState) (data : NDArr) (offset : Option (List Int))
    (level : Int) (format : Option TexFormat) (clim : Option Clim) :
    TexState × Option PyErr :=
  -- Reset if there was an error earlier
  let st := resetIfErrored st0
  let ndim := ndimOf st.target
  -- data is an ndarray by typing; `assert len(shape) in (ndim, ndim+1)`
  let shape := data.shape
  if ¬ (shape.length = ndim ∨ shape.length = ndim + 1) then (st, some .assertionError)
  else
    -- Check offset; without an explicit offset, substitute all-zeros when
    -- the shape matches the current texture and a handle exists
    let offRes : Except PyErr (Option (List Int)) :=
      match offset with
      | some o =>
        if o.length = (shape.take ndim).length then .ok (some o)
        else .error .assertionError
      | none =>
        match st.texShape with
        | some ts =>
          if shape = ts ∧ st.handle > 0 then
            .ok (some ((ts.take ndim).map (fun _ => (0 : Int))))
          else .ok none
        | none => .ok none
    match offRes with
    | .error e => (st, some e)
    | .ok off2 =>
      -- `assert isinstance(level, int) and level >= 0`; the format and
      -- clim asserts are enforced by the types here
      if level < 0 then (st, some .assertionError)
      else
        ({ st with
            pending := some ⟨some data, off2, level, format, clim⟩
            texShape := some shape }, none)

/-- Shape comparison of the `set_storage` no-op check
(`self._texture_shape[:ndim] == shape[:ndim]`, texture.py line 357). -/
def shapeMatches (tsOpt : Option (List Int)) (shape : List Int) (ndim : Nat) : Bool :=
  match tsOpt with
  | some ts => decide (ts.take ndim = shape.take ndim)
  | none => false

/-- Embedding of `Texture.set_storage` (texture.py lines 325-373). -/
def set_storage (st0 : TexState) (shape : List Int) (level : Int)
    (format : Option TexFormat) : TexState × Option PyErr :=
  -- Reset if there was an error earlier
  let st := resetIfErrored st0
  let ndim := ndimOf st.target
  -- Is this already my shape?
  if format = none ∧ level = 0 ∧ shapeMatches st.texShape shape ndim = true then
    (st, none)
  else
    -- `assert isinstance(shape, tuple)`; `assert len(shape) in (ndim, ndim+1)`
    if ¬ (shape.length = ndim ∨ shape.length = ndim + 1) then (st, some .assertionError)
    else if ¬ (shape.all (fun i => decide (0 < i)) = true) then (st, some .assertionError)
    else if level < 0 then (st, some .assertionError)
    else
      ({ st with
          pending := some ⟨none, none, level, format, none⟩
          texShape := some shape }, none)

/-- Driver-provided behaviour, an external collaborator: extension
availability, `glIsTexture`, and the handle `glGenTextures` hands out. -/
structure GLEnv where
  extAvail : String → Bool
  isTexture : Int → Bool
  genTex : Int

/-- Membership of a dtype in the `DTYPES` upload table (texture.py lines
30-33): only uint8, float16 and float32 are directly uploadable. -/
def inDTYPES (dt : Dtype) : Bool :=
  dt == .uint8 || dt == .float16 || dt == .float32

/-- Embedding of `_RawTexture._get_alignment` (texture.py lines 176-194):
the first of 4, 8, 2, 1 that divides the width. -/
def get_alignment (width : Int) : Nat :=
  if width % 4 = 0 then 4
  else if width % 8 = 0 then 8
  else if width % 2 = 0 then 2
  else 1

/-- Embedding of `_RawTexture._update` (texture.py lines 145-161): check
the dtype against `DTYPES`, compute the reversed leading size, assert the
offset length matches, and issue one `glTexSubImage` call. -/
def update_calls (target : Target) (d : NDArr) (off : List Int)
    (format : TexFormat) (level : Int) : Except PyErr (List GLCall) :=
  if inDTYPES d.dtype = true then
    let size := (d.shape.take (ndimOf target)).reverse
    if off.length = size.length then
      .ok [GLCall.texSubImage target.toGL level off size format]
    else .error .assertionError
  else .error (.valueError "Cannot translate datatype to GL.")

/-- Embedding of `_RawTexture._upload` (texture.py lines 112-142): check
the dtype, set the unpack alignment when it is not 4, issue one
`glTexImage` call, restore the alignment. -/
def upload_calls (target : Target) (d : NDArr) (format : TexFormat)
    (level : Int) : Except PyErr (List GLCall) :=
  if inDTYPES d.dtype = true then
    let size := (d.shape.take (ndimOf target)).reverse
    let alignment := get_alignment (d.shape.getLastD 0)
    let pre := if alignment ≠ 4 then [GLCall.pixelStorei GL_UNPACK_ALIGNMENT alignment] else []
    let post := if alignment ≠ 4 then [GLCall.pixelStorei GL_UNPACK_ALIGNMENT 4] else []
    .ok (pre ++ [GLCall.texImage target.toGL level format size] ++ post)
  else .error (.valueError "Cannot translate datatype to GL.")

/-- Embedding of `_RawTexture._allocate` (texture.py lines 91-109): one
`glTexImage` call with no pixel data. -/
def allocate_calls (target : Target) (shape : List Int) (format : TexFormat)
    (level : Int) : List GLCall :=
  [GLCall.texImage target.toGL level format ((shape.take (ndimOf target)).reverse)]

/-- Data-conversion step of `_process_pending_data` (texture.py lines
425-426): convert the array when present, using the driver's float
capabilities; a `convert_data` exception propagates. -/
def convStep (env : GLEnv) (pdata : Option NDArr) (clim : Option Clim) :
    Except PyErr (Option NDArr) :=
  match pdata with
  | none => .ok none
  | some d =>
    match convert_data (env.extAvail "texture_half_float")
        (env.extAvail "texture_float") d clim with
    | .ok c => .ok (some c.cur)
    | .error e => .error (.conv e.1)

/-- Format-resolution step of `_process_pending_data` (texture.py lines
434-436): use the given format, or infer it from the shape.  A missing
shape cannot arise through the public API; it is mapped to the
`TypeError` Python would raise on `len(None)`. -/
def resolveFmt (fmt : Option TexFormat) (shape : Option (List Int))
    (target : Target) : Except PyErr TexFormat :=
  match fmt with
  | some f => .ok f
  | none =>
    match shape with
    | some s => get_format s target
    | none => .error (.valueError "object of type NoneType has no len")

/-- Python truthiness of the `offset` variable in
`if offset:` (texture.py line 438): `None` and the empty list are falsy. -/
def offTruthy : Option (List Int) → Bool
  | none => false
  | some l => !l.isEmpty

/-- Update branch of `_process_pending_data` (texture.py lines 438-443):
bind, raise unless a live texture exists, then issue the partial update.
The emitted calls up to the raise point are part of the result. -/
def updatePath (env : GLEnv) (st : TexState) (dataC : Option NDArr)
    (off : Option (List Int)) (format : TexFormat) (level : Int) :
    TexState × List GLCall × Option PyErr :=
  let calls0 := [GLCall.bindTexture st.target.toGL st.handle]
  if st.handle ≤ 0 then
    (st, calls0, some (.valueError "Cannot update texture if there is no texture."))
  else
    let calls1 := calls0 ++ [GLCall.isTexture st.handle]
    if env.isTexture st.handle = false then
      (st, calls1, some (.valueError "Cannot update texture if there is no texture."))
    else
      match dataC, off with
      | some d, some o =>
        match update_calls st.target d o format level with
        | .error e => (st, calls1, some e)
        | .ok uc => (st, calls1 ++ uc, none)
      | _, _ =>
        -- an offset without data cannot arise through the public API;
        -- Python would fail reading `data.shape` inside `_update`
        (st, calls1, some (.valueError "NoneType has no attribute shape"))

/-- Reallocation branch of `_process_pending_data` (texture.py lines
445-461): delete any existing texture, create and bind a fresh handle,
upload or allocate, replay the full applied parameter set and clear the
pending parameter diff. -/
def uploadPath (env : GLEnv) (st : TexState) (dataC : Option NDArr)
    (shape : Option (List Int)) (format : TexFormat) (level : Int) :
    TexState × List GLCall × Option PyErr :=
  -- self.delete(): best-effort delete, handle reset to 0
  let dcalls := if st.handle > 0 then [GLCall.deleteTextures st.handle] else []
  -- self._create(); glBindTexture
  let st2 := { st with handle := env.genTex }
  let calls := dcalls ++ [GLCall.genTextures, GLCall.bindTexture st2.target.toGL st2.handle]
  let paramCalls := st2.texParams.map (fun pv => GLCall.texParameter st2.target.toGL pv.1 pv.2)
  match dataC with
  | none =>
    match shape with
    | some s =>
      ({ st2 with pendingParams := [] },
        calls ++ allocate_calls st2.target s format level ++ paramCalls, none)
    | none =>
      -- unreachable through the public API (storage always records a shape)
      (st2, calls, some (.valueError "object of type NoneType has no len"))
  | some d =>
    match upload_calls st2.target d format level with
    | .error e => (st2, calls, some e)
    | .ok uc =>
      ({ st2 with pendingParams := [] }, calls ++ uc ++ paramCalls, none)

/-- Embedding of `Texture._process_pending_data` (texture.py lines
419-461). -/
def process_pending_data (env : GLEnv) (st : TexState) (p : PendingData) :
    TexState × List GLCall × Option PyErr :=
  match convStep env p.data p.clim with
  | .error e => (st, [], some e)
  | .ok dataC =>
    let shape : Option (List Int) :=
      match dataC with
      | some d => some d.shape
      | none => st.texShape
    match resolveFmt p.format shape st.target with
    | .error e => (st, [], some e)
    | .ok format =>
      if offTruthy p.offset = true then
        updatePath env st dataC p.offset format p.level
      else
        uploadPath env st dataC shape format p.level

/-- Result of an activation: object state, shared enable queue, calls
issued, raised error (if any). -/
structure EnableRes where
  st : TexState
  q : Nat → Int
  calls : List GLCall
  err : Option PyErr

/-- Tail of `Texture._enable` after the pending data was handled
(texture.py lines 404-416): no-op at handle 0, `RuntimeError` when the
handle is not a texture, otherwise the `_RawTexture._enable` bind
(push_enable, optional unit select, bind) followed by flushing the
pending parameter diff (dict popitem order, i.e. last in first out). -/
def enableTail (env : GLEnv) (st : TexState) (q : Nat → Int)
    (cs : List GLCall) : EnableRes :=
  if st.handle = 0 then ⟨st, q, cs, none⟩
  else
    let cs1 := cs ++ [GLCall.isTexture st.handle]
    if env.isTexture st.handle = false then
      ⟨st, q, cs1, some (.runtimeError "This should not happen (texture is invalid)")⟩
    else
      let pe := push_enable q st.target.toGL
      let actCalls := if st.unit ≥ 0 then [GLCall.activeTexture (GL_TEXTURE0 + st.unit)] else []
      let bindCalls := [GLCall.bindTexture st.target.toGL st.handle]
      let paramCalls :=
        (st.pendingParams.reverse).map (fun pv => GLCall.texParameter st.target.toGL pv.1 pv.2)
      ⟨{ st with pendingParams := [] }, pe.1,
        cs1 ++ pe.2 ++ actCalls ++ bindCalls ++ paramCalls, none⟩

/-- Embedding of `Texture._enable` (texture.py lines 376-416): return
immediately when errored; sticky-error when the 3D extension is missing;
consume pending data and sticky-error (with a one-time warning, not a
raise) when the resulting handle is invalid; otherwise bind and flush
parameters. -/
def Texture_enable (env : GLEnv) (st : TexState) (q : Nat → Int) : EnableRes :=
  -- Error last time
  if st.handle < 0 then ⟨st, q, [], none⟩
  -- If we use a 3D texture, we need an extension
  else if st.target = .tex3D ∧ env.extAvail "GL_texture_3D" = false then
    ⟨{ st with handle := -1 }, q, [], none⟩
  else
    match st.pending with
    | some p =>
      let st1 := { st with pending := none }
      match process_pending_data env st1 p with
      | (st2, cs, some e) => ⟨st2, q, cs, some e⟩
      | (st2, cs, none) =>
        let cs1 := cs ++ [GLCall.isTexture st2.handle]
        if env.isTexture st2.handle = false then
          ⟨{ st2 with handle := -1 }, q, cs1, none⟩
        else enableTail env st2 q cs1
    | none => enableTail env st q []

/-- N successive activations, threading object state and the shared
enable queue and collecting all driver calls. -/
def enableN (env : GLEnv) : Nat → TexState → (Nat → Int) →
    TexState × (Nat → Int) × List GLCall
  | 0, st, q => (st, q, [])
  | Nat.succ n, st, q =>
    let r := Texture_enable env st q
    let rest := enableN env n r.st r.q
    (rest.1, rest.2.1, r.calls ++ rest.2.2)

/-- Recognizer for partial-update calls (`glTexSubImage`). -/
def isSubImage : GLCall → Bool
  | GLCall.texSubImage _ _ _ _ _ => true
  | _ => false

/-- Recognizer for the full delete/create/reallocate call family
(`glDeleteTextures`, `glGenTextures`, `glTexImage`). -/
def isRealloc : GLCall → Bool
  | GLCall.deleteTextures _ => true
  | GLCall.genTextures => true
  | GLCall.texImage _ _ _ _ => true
  | _ => false

/-! ## Sample values used by concrete witnesses and counterexamples -/

/-- A driver environment whose extensions are all available and whose
handles all validate. -/
def sampleEnv : GLEnv :=
  { extAvail := fun _ => true, isTexture := fun _ => true, genTex := 7 }

/-- A texture object in the sticky-error state with a recorded shape. -/
def erroredSt : TexState :=
  { target := .tex2D, handle := -1, unit := -1, pending := none,
    texShape := some [4, 4], texParams := [], pendingParams := [] }

/-- A small uint8 image array. -/
def smallArr : NDArr := { dtype := .uint8, shape := [4, 4], vals := [] }

/-- A one-element uint8 array with a visible value. -/
def u8Arr : NDArr := { dtype := .uint8, shape := [1], vals := [5] }

/-- A rank-1 array (invalid for both targets). -/
def rank1Arr : NDArr := { dtype := .uint8, shape := [4], vals := [] }

/-- A small uint16 array. -/
def u16Arr : NDArr := { dtype := .uint16, shape := [2], vals := [1, 2] }

/-- A healthy 2D texture with handle 1 and recorded shape (4,4). -/
def okSt : TexState :=
  { target := .tex2D, handle := 1, unit := -1, pending := none,
    texShape := some [4, 4], texParams := [], pendingParams := [] }

/-! ## Helper lemmas about the shared enable queue -/

theorem push_enable_fst (q : Nat → Int) (e : Nat) : (push_enable q e).1 e = q e + 1 := by
  simp [push_enable, qset]

theorem pushN_of_pos (n : Nat) (q : Nat → Int) (e : Nat) (h : 0 < q e) :
    (pushN n q e).1 e = q e + n ∧ (pushN n q e).2 = [] := by
  induction n generalizing q with
  | zero => simp [pushN]
  | succ m ih =>
    have hne : ¬ q e = 0 := by omega
    have hpos : 0 < (push_enable q e).1 e := by rw [push_enable_fst]; omega
    obtain ⟨ih1, ih2⟩ := ih (push_enable q e).1 hpos
    constructor
    · show (pushN m (push_enable q e).1 e).1 e = q e + ((m : Int) + 1)
      rw [ih1, push_enable_fst]; ring
    · show (push_enable q e).2 ++ (pushN m (push_enable q e).1 e).2 = []
      rw [ih2]
      simp [push_enable, hne]

theorem pushN_from_zero (n : Nat) (q : Nat → Int) (e : Nat) (h0 : q e = 0) (h1 : 1 ≤ n) :
    (pushN n q e).1 e = n ∧ (pushN n q e).2 = [GLCall.enable e] := by
  obtain ⟨m, rfl⟩ : ∃ m, n = m + 1 := ⟨n - 1, by omega⟩
  have hpos : 0 < (push_enable q e).1 e := by rw [push_enable_fst, h0]; omega
  obtain ⟨p1, p2⟩ := pushN_of_pos m (push_enable q e).1 e hpos
  constructor
  · show (pushN m (push_enable q e).1 e).1 e = ((m + 1 : Nat) : Int)
    rw [p1, push_enable_fst, h0]; push_cast; ring
  · show (push_enable q e).2 ++ (pushN m (push_enable q e).1 e).2 = [GLCall.enable e]
    rw [p2]
    simp [push_enable, h0]

theorem qset_eval (q : Nat → Int) (k : Nat) (v : Int) (x : Nat) :
    qset q k v x = if x = k then v else q x := rfl

theorem popN_exact (n : Nat) (q : Nat → Int) (e : Nat) (h : q e = n) (h1 : 1 ≤ n) :
    (popN n q e).1 e = 0 ∧ (popN n q e).2 = [GLCall.disable e] := by
  induction n generalizing q with
  | zero => omega
  | succ m ih =>
    rcases Nat.eq_zero_or_pos m with hm0 | hmpos
    · subst hm0
      refine ⟨?_, ?_⟩
      · show (popN 0 (pop_enable q e).1 e).1 e = 0
        simp [popN, pop_enable, qset, h]
      · show (pop_enable q e).2 ++ (popN 0 (pop_enable q e).1 e).2 = [GLCall.disable e]
        simp [popN, pop_enable, h]
    · have hne : ¬ q e = 1 := by rw [h]; push_cast; omega
      have hq1 : (pop_enable q e).1 e = m := by
        show qset q e (max 0 (q e - 1)) e = m
        rw [qset_eval, if_pos rfl, h]
        have hm : ((m + 1 : Nat) : Int) - 1 = (m : Int) := by push_cast; ring
        rw [hm, max_eq_right (by positivity)]
      obtain ⟨i1, i2⟩ := ih (pop_enable q e).1 hq1 hmpos
      refine ⟨i1, ?_⟩
      show (pop_enable q e).2 ++ (popN m (pop_enable q e).1 e).2 = [GLCall.disable e]
      rw [i2]
      simp [pop_enable, hne]

theorem applyOp_nonneg (q : Nat → Int) (op : QOp) (h : ∀ x, 0 ≤ q x) :
    ∀ x, 0 ≤ applyOp q op x := by
  intro x
  cases op with
  | push e =>
    show 0 ≤ qset q e (q e + 1) x
    rw [qset_eval]
    split
    · have := h e; omega
    · exact h x
  | pop e =>
    show 0 ≤ qset q e (max 0 (q e - 1)) x
    rw [qset_eval]
    split
    · exact le_max_left 0 _
    · exact h x

theorem applyOps_nonneg (ops : List QOp) (q : Nat → Int) (h : ∀ x, 0 ≤ q x) :
    ∀ x, 0 ≤ applyOps ops q x := by
  induction ops generalizing q with
  | nil => exact h
  | cons op rest ih =>
    intro x
    have : applyOps (op :: rest) q = applyOps rest (applyOp q op) := rfl
    rw [this]
    exact ih (applyOp q op) (applyOp_nonneg q op h) x

/-! ## Claim theorems -/

/-- C7: for every capability enum and every N ≥ 1, N `push_enable` calls
followed by N `pop_enable` calls leave the shared counter for that enum
at exactly 0, with the underlying `glEnable` issued exactly once (by the
first push, the only call the push run emits) and `glDisable` exactly
once (by the last pop, the only call the pop run emits); and across any
sequence of pushes and pops — in particular one with more pops than
pushes — a nonnegative counter stays nonnegative because the decrement
is clamped at zero. -/
theorem refcount_push_pop_C7 (e : Nat) (q : Nat → Int) (N : Nat) (ops : List QOp)
    (q2 : Nat → Int) (x : Nat)
    (h0 : q e = 0) (hN : 1 ≤ N) (hq2 : ∀ y, 0 ≤ q2 y) :
    (pushN N q e).2 = [GLCall.enable e] ∧
    (popN N (pushN N q e).1 e).1 e = 0 ∧
    (popN N (pushN N q e).1 e).2 = [GLCall.disable e] ∧
    0 ≤ applyOps ops q2 x := by
  obtain ⟨p1, p2⟩ := pushN_from_zero N q e h0 hN
  obtain ⟨o1, o2⟩ := popN_exact N (pushN N q e).1 e p1 hN
  exact ⟨p2, o1, o2, applyOps_nonneg ops q2 hq2 x⟩

/-- Witness for C7 at a concrete enum, counter map, N = 2 and a pop-heavy
operation sequence. -/
theorem refcount_push_pop_C7_witness :
    ((fun _ : Nat => (0 : Int)) 5 = 0 ∧ 1 ≤ 2 ∧
      (∀ y : Nat, 0 ≤ (fun _ : Nat => (0 : Int)) y)) ∧
    ((pushN 2 (fun _ => 0) 5).2 = [GLCall.enable 5] ∧
     (popN 2 (pushN 2 (fun _ => 0) 5).1 5).1 5 = 0 ∧
     (popN 2 (pushN 2 (fun _ => 0) 5).1 5).2 = [GLCall.disable 5] ∧
     0 ≤ applyOps [QOp.pop 5, QOp.pop 5, QOp.push 5] (fun _ => 0) 5) :=
  ⟨⟨rfl, by decide, fun _ => le_refl 0⟩,
   refcount_push_pop_C7 5 (fun _ => 0) 2 [QOp.pop 5, QOp.pop 5, QOp.push 5]
     (fun _ => 0) 5 rfl (by decide) (fun _ => le_refl 0)⟩

theorem Texture_enable_errored (env : GLEnv) (st : TexState) (q : Nat → Int)
    (h : st.handle < 0) : Texture_enable env st q = ⟨st, q, [], none⟩ := by
  unfold Texture_enable
  rw [if_pos h]

theorem enableN_errored (env : GLEnv) (n : Nat) (st : TexState) (q : Nat → Int)
    (h : st.handle < 0) : enableN env n st q = (st, q, []) := by
  induction n with
  | zero => rfl
  | succ m ih =>
    show (let r := Texture_enable env st q
          let rest := enableN env m r.st r.q
          (rest.1, rest.2.1, r.calls ++ rest.2.2)) = (st, q, [])
    rw [Texture_enable_errored env st q h]
    simpa using ih

/-- C4: a texture whose handle is negative (sticky-error state) makes
activation return immediately with zero driver calls and an unchanged
state, and this persists over any number of repeated activations. -/
theorem errored_enable_noop_C4 (env : GLEnv) (st : TexState) (q : Nat → Int) (n : Nat)
    (h : st.handle < 0) :
    Texture_enable env st q = ⟨st, q, [], none⟩ ∧ enableN env n st q = (st, q, []) :=
  ⟨Texture_enable_errored env st q h, enableN_errored env n st q h⟩

/-- Witness for C4 on a concrete errored texture, three activations. -/
theorem errored_enable_noop_C4_witness :
    erroredSt.handle < 0 ∧
    (Texture_enable sampleEnv erroredSt (fun _ => 0) = ⟨erroredSt, (fun _ => 0), [], none⟩ ∧
     enableN sampleEnv 3 erroredSt (fun _ => 0) = (erroredSt, (fun _ => 0), [])) :=
  ⟨by decide, errored_enable_noop_C4 sampleEnv erroredSt (fun _ => 0) 3 (by decide)⟩

theorem resetIfErrored_target (st : TexState) : (resetIfErrored st).target = st.target := by
  unfold resetIfErrored
  split <;> rfl

theorem resetIfErrored_of_ok (st : TexState) (h : 0 ≤ st.handle) :
    resetIfErrored st = st := by
  unfold resetIfErrored
  rw [if_neg (by omega)]

theorem set_data_handle_eq (st0 : TexState) (data : NDArr) (offset : Option (List Int))
    (level : Int) (format : Option TexFormat) (clim : Option Clim) :
    (set_data st0 data offset level format clim).1.handle = (resetIfErrored st0).handle := by
  simp only [set_data]
  repeat' split
  all_goals rfl

theorem set_storage_handle_eq (st0 : TexState) (shape : List Int) (level : Int)
    (format : Option TexFormat) :
    (set_storage st0 shape level format).1.handle = (resetIfErrored st0).handle := by
  simp only [set_storage]
  repeat' split
  all_goals rfl

theorem resetIfErrored_handle_of_err (st : TexState) (h : st.handle < 0) :
    (resetIfErrored st).handle = 0 := by
  unfold resetIfErrored
  rw [if_pos h]

/-- C2 (amended): `set_data` and `set_storage` clear the sticky error
themselves — a negative handle is reset to 0 at the start of either call
(texture.py lines 288-291 and 346-349), whatever else the call does —
while activation returns immediately on a negative handle without
resetting it. -/
theorem error_reset_in_set_calls_C2 (st : TexState) (data : NDArr)
    (offset : Option (List Int)) (level : Int) (format : Option TexFormat)
    (clim : Option Clim) (shape2 : List Int) (level2 : Int)
    (format2 : Option TexFormat) (env : GLEnv) (q : Nat → Int)
    (h : st.handle < 0) :
    (set_data st data offset level format clim).1.handle = 0 ∧
    (set_storage st shape2 level2 format2).1.handle = 0 ∧
    Texture_enable env st q = ⟨st, q, [], none⟩ := by
  refine ⟨?_, ?_, Texture_enable_errored env st q h⟩
  · rw [set_data_handle_eq, resetIfErrored_handle_of_err st h]
  · rw [set_storage_handle_eq, resetIfErrored_handle_of_err st h]

/-- Witness for C2 (amended) on a concrete errored texture. -/
theorem error_reset_in_set_calls_C2_witness :
    erroredSt.handle < 0 ∧
    ((set_data erroredSt smallArr none 0 none none).1.handle = 0 ∧
     (set_storage erroredSt [2, 2] 0 none).1.handle = 0 ∧
     Texture_enable sampleEnv erroredSt (fun _ => 0) = ⟨erroredSt, (fun _ => 0), [], none⟩) :=
  ⟨by decide,
   error_reset_in_set_calls_C2 erroredSt smallArr none 0 none none [2, 2] 0 none
     sampleEnv (fun _ => 0) (by decide)⟩

/-- C2 counterexample: on an errored texture (handle −1), a valid
`set_data` call leaves the handle at 0, not negative — the call itself
clears the error, contradicting the claim that the handle stays negative
and is reset only inside activation. -/
theorem error_reset_in_set_calls_C2_cex :
    erroredSt.handle = -1 ∧
    (set_data erroredSt smallArr none 0 none none).2 = none ∧
    (set_data erroredSt smallArr none 0 none none).1.handle = 0 := by
  decide

/-- C3 (amended): `set_data` with an array whose rank is outside
{ndim, ndim+1} raises the rank assertion before recording any pending
description, shape or parameter change; the state after the raise is
exactly the input state run through the error-reset step, hence
unchanged whenever the texture was not in the errored state (a negative
handle has already been reset to 0 and the recorded shape cleared before
the rank check runs). -/
theorem set_data_bad_rank_C3 (st : TexState) (data : NDArr) (offset : Option (List Int))
    (level : Int) (format : Option TexFormat) (clim : Option Clim)
    (h : ¬ (data.shape.length = ndimOf st.target ∨
            data.shape.length = ndimOf st.target + 1)) :
    set_data st data offset level format clim = (resetIfErrored st, some .assertionError) ∧
    (0 ≤ st.handle → resetIfErrored st = st) := by
  constructor
  · simp only [set_data]
    rw [resetIfErrored_target]
    rw [if_pos h]
  · exact resetIfErrored_of_ok st

/-- Witness for C3 (amended): a rank-1 array on a healthy 2D texture. -/
theorem set_data_bad_rank_C3_witness :
    (¬ (rank1Arr.shape.length = ndimOf okSt.target ∨
        rank1Arr.shape.length = ndimOf okSt.target + 1)) ∧
    (set_data okSt rank1Arr none 0 none none =
        (resetIfErrored okSt, some .assertionError) ∧
     (0 ≤ okSt.handle → resetIfErrored okSt = okSt)) :=
  ⟨by decide, set_data_bad_rank_C3 okSt rank1Arr none 0 none none (by decide)⟩

/-- C3 counterexample: on an errored texture, the rank assertion does
raise, yet the state is not exactly as before the call — the error-reset
step has already set the handle to 0 and cleared the recorded shape. -/
theorem set_data_bad_rank_C3_cex :
    (set_data erroredSt rank1Arr none 0 none none).2 = some PyErr.assertionError ∧
    (set_data erroredSt rank1Arr none 0 none none).1 ≠ erroredSt := by
  decide

/-- C8 (amended): on a texture that is not in the errored state, calling
`set_storage` with level 0, no explicit format, and a shape whose leading
target dimensions equal the currently recorded shape's leading dimensions
is a complete no-op — the state (pending description and recorded shape
included) is returned unchanged and no error is raised; in particular a
second such `set_storage` after the first description was resolved
records no second pending description.  (An errored texture is excluded:
there the error-reset step first clears the recorded shape, after which a
fresh pending description is recorded.) -/
theorem set_storage_noop_C8 (st : TexState) (shape ts : List Int)
    (h0 : 0 ≤ st.handle) (hts : st.texShape = some ts)
    (hm : ts.take (ndimOf st.target) = shape.take (ndimOf st.target)) :
    set_storage st shape 0 none = (st, none) := by
  have hr : resetIfErrored st = st := resetIfErrored_of_ok st h0
  simp only [set_storage]
  rw [hr]
  rw [if_pos]
  refine ⟨by trivial, by trivial, ?_⟩
  simp [shapeMatches, hts, hm]

/-- Witness for C8 (amended): a resolved texture with recorded shape
(4,4) and a repeated `set_storage((4,4))`. -/
theorem set_storage_noop_C8_witness :
    (0 ≤ okSt.handle ∧ okSt.texShape = some [4, 4] ∧
      List.take (ndimOf okSt.target) [4, 4] = List.take (ndimOf okSt.target) [4, 4]) ∧
    set_storage okSt [4, 4] 0 none = (okSt, none) :=
  ⟨⟨by decide, rfl, rfl⟩, set_storage_noop_C8 okSt [4, 4] [4, 4] (by decide) rfl rfl⟩

/-- C8 counterexample: on an errored texture whose recorded shape already
equals the requested shape, `set_storage` with level 0 and no format is
not a no-op — it records a fresh pending description (the error-reset
step cleared the recorded shape before the no-op check could see it). -/
theorem set_storage_noop_C8_cex :
    erroredSt.texShape = some [4, 4] ∧
    erroredSt.pending = none ∧
    (set_storage erroredSt [4, 4] 0 none).2 = none ∧
    (set_storage erroredSt [4, 4] 0 none).1.pending =
      some { data := none, offset := none, level := 0, format := none, clim := none } := by
  decide

/-- C9: a uint8 array with no contrast limits passes through
`convert_data` untouched — the returned array is the caller's own array
(`aliased = true`, no copy), its contents are byte-identical to the
input, and the caller's array is unmodified. -/
theorem uint8_passthrough_C9 (F16sup F32sup : Bool) (data : NDArr)
    (h : data.dtype = .uint8) :
    convert_data F16sup F32sup data none = .ok ⟨data, data, true⟩ := by
  rcases data with ⟨dt, sh, vs⟩
  cases h
  rfl

/-- Witness for C9 on a concrete uint8 array. -/
theorem uint8_passthrough_C9_witness :
    u8Arr.dtype = Dtype.uint8 ∧
    convert_data true false u8Arr none = .ok ⟨u8Arr, u8Arr, true⟩ :=
  ⟨rfl, uint8_passthrough_C9 true false u8Arr rfl⟩

/-- C1 (amended): for unsigned-integer inputs of bit width 16, 32 or 64
with no explicit contrast limits, the first section of `convert_data`
derives the contrast limits `(0, 2^(bits-1))` — half of `2^bits`, not the
type maximum `2^bits - 1` — and rebinds the data to a fresh 32-bit float
cast, so the limits are applied to the float32 array; the full
`convert_data` run is then exactly the limit application on that cast
followed by the final materialization.  Unsigned 8-bit input is excluded:
with no limits it takes the dedicated uint8 passthrough branch, deriving
no limits and casting nothing. -/
theorem uint_clim_derivation_C1 (F16sup F32sup : Bool) (data : NDArr)
    (h : data.dtype = .uint16 ∨ data.dtype = .uint32 ∨ data.dtype = .uint64) :
    convPrepare F16sup F32sup ⟨data, data, true⟩ none =
      (⟨data.astype .float32, data, false⟩,
        some (0, (2 : ℚ) ^ (data.dtype.bits - 1)), true) ∧
    convert_data F16sup F32sup data none =
      convTail F16sup F32sup
        (applyClim ⟨data.astype .float32, data, false⟩
          (some (0, (2 : ℚ) ^ (data.dtype.bits - 1)))) := by
  have hprep : convPrepare F16sup F32sup ⟨data, data, true⟩ none =
      (⟨data.astype .float32, data, false⟩,
        some (0, (2 : ℚ) ^ (data.dtype.bits - 1)), true) := by
    rcases data with ⟨dt, sh, vs⟩
    rcases h with h | h | h <;> cases h <;>
      simp [convPrepare, convPrepareUint, CArr.freshMap, NDArr.astype, Dtype.bits] <;>
      norm_num
  refine ⟨hprep, ?_⟩
  show convTail F16sup F32sup
      (applyClim (convPrepare F16sup F32sup ⟨data, data, true⟩ none).1
        (convPrepare F16sup F32sup ⟨data, data, true⟩ none).2.1) = _
  rw [hprep]

/-- Witness for C1 (amended) on a concrete uint16 array. -/
theorem uint_clim_derivation_C1_witness :
    (u16Arr.dtype = Dtype.uint16 ∨ u16Arr.dtype = Dtype.uint32 ∨
      u16Arr.dtype = Dtype.uint64) ∧
    (convPrepare true true ⟨u16Arr, u16Arr, true⟩ none =
      (⟨u16Arr.astype .float32, u16Arr, false⟩,
        some (0, (2 : ℚ) ^ (u16Arr.dtype.bits - 1)), true) ∧
     convert_data true true u16Arr none =
      convTail true true
        (applyClim ⟨u16Arr.astype .float32, u16Arr, false⟩
          (some (0, (2 : ℚ) ^ (u16Arr.dtype.bits - 1))))) :=
  ⟨Or.inl rfl, uint_clim_derivation_C1 true true u16Arr (Or.inl rfl)⟩

/-- C1 counterexample: the claim quantifies over every unsigned-integer
bit width and names (0, 128) for unsigned 8-bit, but a uint8 array with
no limits is passed through entirely untouched — still uint8, not cast to
float32, its value 5 unchanged rather than rescaled by the limits
(0, 128). -/
theorem uint_clim_derivation_C1_cex :
    u8Arr.dtype = Dtype.uint8 ∧
    convert_data true true u8Arr none = .ok ⟨u8Arr, u8Arr, true⟩ ∧
    u8Arr.vals = [5] ∧
    u8Arr.dtype ≠ Dtype.float32 :=
  ⟨rfl, rfl, rfl, by decide⟩

theorem convFinalize_ok_dtype (F16sup F32sup : Bool) (c c2 : CArr)
    (h : convFinalize F16sup F32sup c = .ok c2) :
    c2.cur.dtype = .uint8 ∨ (c2.cur.dtype = .float16 ∧ F16sup = true) ∨
      (c2.cur.dtype = .float32 ∧ F32sup = true) := by
  unfold convFinalize at h
  split at h
  · cases h
    left
    assumption
  · split at h
    · cases h
      right
      left
      assumption
    · split at h
      · cases h
        right
        right
        assumption
      · split at h
        · cases h
          left
          rfl
        · exact Except.noConfusion h

theorem convert_data_ok_dtype (F16sup F32sup : Bool) (data : NDArr)
    (clim : Option Clim) (c : CArr)
    (h : convert_data F16sup F32sup data clim = .ok c) :
    c.cur.dtype = .uint8 ∨ (c.cur.dtype = .float16 ∧ F16sup = true) ∨
      (c.cur.dtype = .float32 ∧ F32sup = true) := by
  simp only [convert_data] at h
  cases hac : applyClim (convPrepare F16sup F32sup ⟨data, data, true⟩ clim).1
      (convPrepare F16sup F32sup ⟨data, data, true⟩ clim).2.1 with
  | error e =>
    rw [hac] at h
    simp only [convTail] at h
    exact Except.noConfusion h
  | ok c2 =>
    rw [hac] at h
    simp only [convTail] at h
    exact convFinalize_ok_dtype F16sup F32sup c2 c h

/-- C5: whenever `convert_data` returns an array, that array's element
kind is unsigned 8-bit, or 16-bit float with the half-float capability
available, or 32-bit float with the float capability available — never
any other kind. -/
theorem convert_result_dtype_C5 (F16sup F32sup : Bool) (data : NDArr)
    (clim : Option Clim) (c : CArr)
    (h : convert_data F16sup F32sup data clim = .ok c) :
    c.cur.dtype = .uint8 ∨ (c.cur.dtype = .float16 ∧ F16sup = true) ∨
      (c.cur.dtype = .float32 ∧ F32sup = true) :=
  convert_data_ok_dtype F16sup F32sup data clim c h

/-- Witness for C5 on a concrete uint8 input. -/
theorem convert_result_dtype_C5_witness :
    convert_data true true u8Arr none = .ok ⟨u8Arr, u8Arr, true⟩ ∧
    ((⟨u8Arr, u8Arr, true⟩ : CArr).cur.dtype = .uint8 ∨
     ((⟨u8Arr, u8Arr, true⟩ : CArr).cur.dtype = .float16 ∧ true = true) ∨
     ((⟨u8Arr, u8Arr, true⟩ : CArr).cur.dtype = .float32 ∧ true = true)) :=
  ⟨rfl, convert_result_dtype_C5 true true u8Arr none ⟨u8Arr, u8Arr, true⟩ rfl⟩

theorem inplace_caller_of_fresh (c : CArr) (f : NDArr → NDArr) (h : c.aliased = false) :
    (c.inplace f).caller = c.caller := by
  simp [CArr.inplace, h]

theorem inplace_aliased (c : CArr) (f : NDArr → NDArr) :
    (c.inplace f).aliased = c.aliased := rfl

theorem applyClim_exCaller_of_fresh (c0 : CArr) (clim : Option Clim)
    (h : c0.aliased = false) : exCaller (applyClim c0 clim) = c0.caller := by
  rcases clim with _ | ⟨lo, hi⟩
  · rfl
  · have hsub : ∀ c1 : CArr, c1.aliased = false → c1.caller = c0.caller →
        exCaller (if hi - lo ≠ 1 then
          if hi - lo = 0 then .error (.zeroDivision, c1.caller)
          else .ok (c1.inplace (NDArr.mulScalar · (1 / (hi - lo))))
        else .ok c1) = c0.caller := by
      intro c1 h1 hc
      split
      · split
        · simpa [exCaller] using hc
        · simpa [exCaller, inplace_caller_of_fresh c1 _ h1] using hc
      · simpa [exCaller] using hc
    show exCaller
        (let c := if lo ≠ 0 then c0.inplace (NDArr.subScalar · lo) else c0
         if hi - lo ≠ 1 then
           if hi - lo = 0 then .error (.zeroDivision, c.caller)
           else .ok (c.inplace (NDArr.mulScalar · (1 / (hi - lo))))
         else .ok c) = c0.caller
    split
    · exact hsub _ ((inplace_aliased c0 (NDArr.subScalar · lo)).trans h)
        (inplace_caller_of_fresh c0 _ h)
    · exact hsub c0 h rfl

theorem applyClim_ok_fresh (c0 c2 : CArr) (clim : Option Clim) (h : c0.aliased = false)
    (hok : applyClim c0 clim = .ok c2) : c2.caller = c0.caller ∧ c2.aliased = false := by
  rcases clim with _ | ⟨lo, hi⟩
  · cases hok
    exact ⟨rfl, h⟩
  · have hsub : ∀ c1 : CArr, c1.aliased = false → c1.caller = c0.caller →
        (if hi - lo ≠ 1 then
          if hi - lo = 0 then Except.error (ConvErr.zeroDivision, c1.caller)
          else Except.ok (c1.inplace (NDArr.mulScalar · (1 / (hi - lo))))
        else Except.ok c1) = .ok c2 → c2.caller = c0.caller ∧ c2.aliased = false := by
      intro c1 h1 hc he
      split at he
      · split at he
        · exact Except.noConfusion he
        · cases he
          exact ⟨(inplace_caller_of_fresh c1 _ h1).trans hc, (inplace_aliased c1 _).trans h1⟩
      · cases he
        exact ⟨hc, h1⟩
    revert hok
    show (let c := if lo ≠ 0 then c0.inplace (NDArr.subScalar · lo) else c0
          if hi - lo ≠ 1 then
            if hi - lo = 0 then Except.error (ConvErr.zeroDivision, c.caller)
            else Except.ok (c.inplace (NDArr.mulScalar · (1 / (hi - lo))))
          else Except.ok c) = .ok c2 → _
    split
    · exact hsub _ ((inplace_aliased c0 (NDArr.subScalar · lo)).trans h)
        (inplace_caller_of_fresh c0 _ h)
    · exact hsub c0 h rfl

theorem convFinalize_exCaller_of_fresh (F16sup F32sup : Bool) (c : CArr)
    (h : c.aliased = false) :
    exCaller (convFinalize F16sup F32sup c) = c.caller := by
  unfold convFinalize
  split
  · rfl
  · split
    · rfl
    · split
      · rfl
      · split
        · simp [exCaller, CArr.freshMap, CArr.inplace, h]
        · rfl

theorem convTail_exCaller_of_fresh (F16sup F32sup : Bool) (c1 : CArr)
    (clim1 : Option Clim) (h : c1.aliased = false) :
    exCaller (convTail F16sup F32sup (applyClim c1 clim1)) = c1.caller := by
  cases hac : applyClim c1 clim1 with
  | error e =>
    have he := applyClim_exCaller_of_fresh c1 clim1 h
    rw [hac] at he
    simpa [convTail, exCaller] using he
  | ok c2 =>
    obtain ⟨hc, ha⟩ := applyClim_ok_fresh c1 c2 clim1 h hac
    show exCaller (convFinalize F16sup F32sup c2) = c1.caller
    rw [convFinalize_exCaller_of_fresh F16sup F32sup c2 ha, hc]

/-- C10: `convert_data` never modifies the caller's input array — every
in-place operation (the limit subtraction and rescale, the times-256
rescale, the clipping) runs only on an array freshly produced by a copy
or a dtype cast, so the caller's array reads back unchanged whether the
call returns or raises. -/
theorem convert_no_input_mutation_C10 (F16sup F32sup : Bool) (data : NDArr)
    (clim : Option Clim) : convCallerAfter F16sup F32sup data clim = data := by
  unfold convCallerAfter convert_data
  rcases data with ⟨dt, sh, vs⟩
  cases dt <;> rcases clim with _ | cl <;> cases F16sup <;> cases F32sup <;>
    first
      | rfl
      | exact convTail_exCaller_of_fresh _ _ _ _ rfl

theorem convPrepare_cur_shape (F16sup F32sup : Bool) (c : CArr) (clim : Option Clim) :
    (convPrepare F16sup F32sup c clim).1.cur.shape = c.cur.shape := by
  rcases c with ⟨⟨dt, sh, vs⟩, ca, al⟩
  cases dt <;> rcases clim with _ | cl <;> cases F16sup <;> cases F32sup <;> rfl

theorem applyClim_ok_cur_shape (c0 c2 : CArr) (clim : Option Clim)
    (hok : applyClim c0 clim = .ok c2) : c2.cur.shape = c0.cur.shape := by
  rcases clim with _ | ⟨lo, hi⟩
  · cases hok
    rfl
  · have hsub : ∀ c1 : CArr, c1.cur.shape = c0.cur.shape →
        (if hi - lo ≠ 1 then
          if hi - lo = 0 then Except.error (ConvErr.zeroDivision, c1.caller)
          else Except.ok (c1.inplace (NDArr.mulScalar · (1 / (hi - lo))))
        else Except.ok c1) = .ok c2 → c2.cur.shape = c0.cur.shape := by
      intro c1 hc he
      split at he
      · split at he
        · exact Except.noConfusion he
        · cases he
          exact hc
      · cases he
        exact hc
    revert hok
    show (let c := if lo ≠ 0 then c0.inplace (NDArr.subScalar · lo) else c0
          if hi - lo ≠ 1 then
            if hi - lo = 0 then Except.error (ConvErr.zeroDivision, c.caller)
            else Except.ok (c.inplace (NDArr.mulScalar · (1 / (hi - lo))))
          else Except.ok c) = .ok c2 → _
    split
    · exact hsub _ rfl
    · exact hsub c0 rfl

theorem convFinalize_ok_cur_shape (F16sup F32sup : Bool) (c c2 : CArr)
    (h : convFinalize F16sup F32sup c = .ok c2) : c2.cur.shape = c.cur.shape := by
  unfold convFinalize at h
  split at h
  · cases h
    rfl
  · split at h
    · cases h
      rfl
    · split at h
      · cases h
        rfl
      · split at h
        · cases h
          rfl
        · exact Except.noConfusion h

theorem convert_data_ok_shape (F16sup F32sup : Bool) (data : NDArr) (clim : Option Clim)
    (c : CArr) (h : convert_data F16sup F32sup data clim = .ok c) :
    c.cur.shape = data.shape := by
  simp only [convert_data] at h
  cases hac : applyClim (convPrepare F16sup F32sup ⟨data, data, true⟩ clim).1
      (convPrepare F16sup F32sup ⟨data, data, true⟩ clim).2.1 with
  | error e =>
    rw [hac] at h
    simp only [convTail] at h
    exact Except.noConfusion h
  | ok c2 =>
    rw [hac] at h
    simp only [convTail] at h
    rw [convFinalize_ok_cur_shape F16sup F32sup c2 c h,
      applyClim_ok_cur_shape _ c2 _ hac, convPrepare_cur_shape]

theorem convert_data_ok_inDTYPES (F16sup F32sup : Bool) (data : NDArr)
    (clim : Option Clim) (c : CArr)
    (h : convert_data F16sup F32sup data clim = .ok c) :
    inDTYPES c.cur.dtype = true := by
  rcases convert_data_ok_dtype F16sup F32sup data clim c h with h1 | ⟨h1, _⟩ | ⟨h1, _⟩ <;>
    rw [inDTYPES, h1] <;> rfl

theorem set_data_fast_path (st : TexState) (data : NDArr) (level : Int)
    (format : Option TexFormat) (clim : Option Clim) (ts : List Int)
    (h1 : 0 < st.handle) (h2 : st.texShape = some ts) (h2b : data.shape = ts)
    (h3 : data.shape.length = ndimOf st.target ∨
          data.shape.length = ndimOf st.target + 1)
    (h4 : 0 ≤ level) :
    set_data st data none level format clim =
      ({ st with
          pending := some ⟨some data,
            some ((ts.take (ndimOf st.target)).map (fun _ => (0 : Int))),
            level, format, clim⟩
          texShape := some data.shape }, none) := by
  have hr : resetIfErrored st = st := resetIfErrored_of_ok st (by omega)
  simp only [set_data, hr]
  rw [if_neg (fun hc => hc h3), h2]
  dsimp only
  rw [if_pos ⟨h2b, h1⟩]
  dsimp only
  rw [if_neg (by omega : ¬ level < 0)]

theorem offTruthy_of_ne_nil (zs : List Int) (h : zs ≠ []) :
    offTruthy (some zs) = true := by
  simp [offTruthy, h]

theorem ppd_fast_path (env : GLEnv) (st : TexState) (d : NDArr) (zs : List Int)
    (level : Int) (fmtOpt : Option TexFormat) (clim : Option Clim) (c : CArr)
    (f : TexFormat)
    (hpos : 0 < st.handle)
    (hconv : convert_data (env.extAvail "texture_half_float")
        (env.extAvail "texture_float") d clim = .ok c)
    (hfmt : resolveFmt fmtOpt (some d.shape) st.target = .ok f)
    (hzs : zs ≠ [])
    (hlen : zs.length = ((c.cur.shape.take (ndimOf st.target)).reverse).length)
    (htex : env.isTexture st.handle = true) :
    process_pending_data env st ⟨some d, some zs, level, fmtOpt, clim⟩ =
      (st, [GLCall.bindTexture st.target.toGL st.handle, GLCall.isTexture st.handle,
            GLCall.texSubImage st.target.toGL level zs
              ((c.cur.shape.take (ndimOf st.target)).reverse) f],
        none) := by
  have hcs : convStep env (some d) clim = .ok (some c.cur) := by
    unfold convStep
    dsimp only
    rw [hconv]
  have hshape : c.cur.shape = d.shape := by
    exact convert_data_ok_shape _ _ d clim c hconv
  have hin : inDTYPES c.cur.dtype = true :=
    convert_data_ok_inDTYPES _ _ d clim c hconv
  simp only [process_pending_data]
  rw [hcs]
  dsimp only
  rw [hshape, hfmt]
  dsimp only
  rw [offTruthy_of_ne_nil zs hzs]
  simp only [updatePath]
  rw [if_neg (by omega : ¬ st.handle ≤ 0), htex]
  simp only [update_calls]
  rw [hin]
  rw [if_pos hlen]
  simp [hshape]

theorem enable_fast_path (env : GLEnv) (st : TexState) (d : NDArr) (zs : List Int)
    (level : Int) (fmtOpt : Option TexFormat) (clim : Option Clim) (c : CArr)
    (f : TexFormat) (q : Nat → Int)
    (hpend : st.pending = some ⟨some d, some zs, level, fmtOpt, clim⟩)
    (hpos : 0 < st.handle)
    (hext : st.target = .tex3D → env.extAvail "GL_texture_3D" = true)
    (hconv : convert_data (env.extAvail "texture_half_float")
        (env.extAvail "texture_float") d clim = .ok c)
    (hfmt : resolveFmt fmtOpt (some d.shape) st.target = .ok f)
    (hzs : zs ≠ [])
    (hlen : zs.length = ((c.cur.shape.take (ndimOf st.target)).reverse).length)
    (htex : env.isTexture st.handle = true) :
    Texture_enable env st q =
      ⟨{ st with pending := none, pendingParams := [] },
        (push_enable q st.target.toGL).1,
        [GLCall.bindTexture st.target.toGL st.handle,
          GLCall.isTexture st.handle,
          GLCall.texSubImage st.target.toGL level zs
            ((c.cur.shape.take (ndimOf st.target)).reverse) f,
          GLCall.isTexture st.handle,
          GLCall.isTexture st.handle]
          ++ (push_enable q st.target.toGL).2
          ++ (if st.unit ≥ 0 then [GLCall.activeTexture (GL_TEXTURE0 + st.unit)] else [])
          ++ [GLCall.bindTexture st.target.toGL st.handle]
          ++ (st.pendingParams.reverse).map
              (fun pv => GLCall.texParameter st.target.toGL pv.1 pv.2),
        none⟩ := by
  have h3d : ¬ (st.target = .tex3D ∧ env.extAvail "GL_texture_3D" = false) := by
    rintro ⟨ht, hf⟩
    rw [hext ht] at hf
    exact Bool.noConfusion hf
  unfold Texture_enable
  rw [if_neg (by omega : ¬ st.handle < 0), if_neg h3d, hpend]
  dsimp only
  rw [ppd_fast_path env { st with pending := none } d zs level fmtOpt clim c f
    hpos hconv hfmt hzs hlen htex]
  dsimp only
  rw [htex]
  rw [if_neg (by simp : ¬ (true = false))]
  unfold enableTail
  rw [if_neg (show ¬ ({ st with pending := none } : TexState).handle = 0 by
    show ¬ st.handle = 0
    omega)]
  rw [htex]
  rw [if_neg (by simp : ¬ (true = false))]
  simp

theorem ndimOf_ge_two (t : Target) : 2 ≤ ndimOf t := by
  cases t <;> decide

theorem forall_isRealloc_append (l1 l2 : List GLCall)
    (h1 : ∀ cl ∈ l1, isRealloc cl = false) (h2 : ∀ cl ∈ l2, isRealloc cl = false) :
    ∀ cl ∈ l1 ++ l2, isRealloc cl = false := by
  intro cl hcl
  rcases List.mem_append.mp hcl with h | h
  · exact h1 cl h
  · exact h2 cl h

theorem push_enable_calls_mem (q : Nat → Int) (e : Nat) (cl : GLCall)
    (hcl : cl ∈ (push_enable q e).2) : cl = GLCall.enable e := by
  have hpe : (push_enable q e).2 = if q e = 0 then [GLCall.enable e] else [] := rfl
  rw [hpe] at hcl
  split at hcl
  · simpa using hcl
  · simp at hcl

/-- C6: a `set_data` call with no explicit offset, on a texture whose
handle is positive and whose recorded shape equals the array's shape,
records an implicit all-zeros offset in the pending description, and the
next activation issues a partial `glTexSubImage` update and none of the
full delete/create/reallocate calls (`glDeleteTextures`, `glGenTextures`,
`glTexImage`).  The environment hypotheses say the driver can carry the
activation out: the array converts, a pixel format resolves, any required
3D extension is present, and the handle validates as a texture. -/
theorem set_data_fast_path_partial_update_C6 (env : GLEnv) (q : Nat → Int)
    (st : TexState) (data : NDArr) (clim : Option Clim) (c : CArr) (f : TexFormat)
    (h1 : 0 < st.handle)
    (h2 : st.texShape = some data.shape)
    (h3 : data.shape.length = ndimOf st.target ∨
          data.shape.length = ndimOf st.target + 1)
    (hconv : convert_data (env.extAvail "texture_half_float")
        (env.extAvail "texture_float") data clim = .ok c)
    (hfmt : get_format data.shape st.target = .ok f)
    (hext : st.target = .tex3D → env.extAvail "GL_texture_3D" = true)
    (htex : env.isTexture st.handle = true) :
    (set_data st data none 0 none clim).2 = none ∧
    (set_data st data none 0 none clim).1.pending =
      some ⟨some data,
        some ((data.shape.take (ndimOf st.target)).map (fun _ => (0 : Int))),
        0, none, clim⟩ ∧
    (Texture_enable env (set_data st data none 0 none clim).1 q).err = none ∧
    (∃ cl ∈ (Texture_enable env (set_data st data none 0 none clim).1 q).calls,
      isSubImage cl = true) ∧
    (∀ cl ∈ (Texture_enable env (set_data st data none 0 none clim).1 q).calls,
      isRealloc cl = false) := by
  have hset := set_data_fast_path st data 0 none clim data.shape h1 h2 rfl h3 le_rfl
  have hndim : 2 ≤ ndimOf st.target := ndimOf_ge_two st.target
  have hlen0 : ndimOf st.target ≤ data.shape.length := by
    rcases h3 with h | h <;> omega
  have hzs : ((data.shape.take (ndimOf st.target)).map (fun _ => (0 : Int))) ≠ [] := by
    have hlenz : ((data.shape.take (ndimOf st.target)).map (fun _ => (0 : Int))).length
        = min (ndimOf st.target) data.shape.length := by
      simp [List.length_take]
    intro hc
    rw [hc] at hlenz
    simp only [List.length_nil] at hlenz
    omega
  have hshape := convert_data_ok_shape _ _ data clim c hconv
  have hlen : ((data.shape.take (ndimOf st.target)).map (fun _ => (0 : Int))).length =
      ((c.cur.shape.take (ndimOf st.target)).reverse).length := by
    rw [hshape]
    simp
  have hfmt2 : resolveFmt none (some data.shape) st.target = .ok f := by
    simpa [resolveFmt] using hfmt
  have henable := enable_fast_path env
      { st with
          pending := some ⟨some data,
            some ((data.shape.take (ndimOf st.target)).map (fun _ => (0 : Int))),
            0, none, clim⟩
          texShape := some data.shape }
      data ((data.shape.take (ndimOf st.target)).map (fun _ => (0 : Int)))
      0 none clim c f q rfl h1 hext hconv hfmt2 hzs hlen htex
  rw [hset]
  dsimp only
  refine ⟨rfl, rfl, ?_, ?_, ?_⟩
  · rw [henable]
  · rw [henable]
    exact ⟨GLCall.texSubImage st.target.toGL 0
        ((data.shape.take (ndimOf st.target)).map (fun _ => (0 : Int)))
        ((c.cur.shape.take (ndimOf st.target)).reverse) f,
      by simp, rfl⟩
  · rw [henable]
    refine forall_isRealloc_append _ _ (forall_isRealloc_append _ _
      (forall_isRealloc_append _ _ (forall_isRealloc_append _ _ ?_ ?_) ?_) ?_) ?_
    · intro cl hcl
      simp only [List.mem_cons, List.not_mem_nil, or_false] at hcl
      rcases hcl with rfl | rfl | rfl | rfl | rfl <;> rfl
    · intro cl hcl
      rw [push_enable_calls_mem _ _ cl hcl]
      rfl
    · intro cl hcl
      split at hcl
      · simp only [List.mem_singleton] at hcl
        subst hcl
        rfl
      · simp at hcl
    · intro cl hcl
      simp only [List.mem_singleton] at hcl
      subst hcl
      rfl
    · intro cl hcl
      simp only [List.mem_map] at hcl
      obtain ⟨pv, _, rfl⟩ := hcl
      rfl

/-- Witness for C6: a live 2D texture with handle 1 and recorded shape
(4,4), updated with a (4,4) uint8 array and activated under a driver
with every capability. -/
theorem set_data_fast_path_partial_update_C6_witness :
    (0 < okSt.handle ∧ okSt.texShape = some smallArr.shape ∧
      (smallArr.shape.length = ndimOf okSt.target ∨
        smallArr.shape.length = ndimOf okSt.target + 1) ∧
      convert_data (sampleEnv.extAvail "texture_half_float")
        (sampleEnv.extAvail "texture_float") smallArr none =
          .ok ⟨smallArr, smallArr, true⟩ ∧
      get_format smallArr.shape okSt.target = .ok .luminance ∧
      (okSt.target = .tex3D → sampleEnv.extAvail "GL_texture_3D" = true) ∧
      sampleEnv.isTexture okSt.handle = true) ∧
    ((set_data okSt smallArr none 0 none none).2 = none ∧
     (set_data okSt smallArr none 0 none none).1.pending =
       some ⟨some smallArr,
         some ((smallArr.shape.take (ndimOf okSt.target)).map (fun _ => (0 : Int))),
         0, none, none⟩ ∧
     (Texture_enable sampleEnv (set_data okSt smallArr none 0 none none).1
        (fun _ => 0)).err = none ∧
     (∃ cl ∈ (Texture_enable sampleEnv (set_data okSt smallArr none 0 none none).1
        (fun _ => 0)).calls, isSubImage cl = true) ∧
     (∀ cl ∈ (Texture_enable sampleEnv (set_data okSt smallArr none 0 none none).1
        (fun _ => 0)).calls, isRealloc cl = false)) :=
  ⟨⟨by decide, rfl, by decide, rfl, rfl, fun _ => rfl, rfl⟩,
   set_data_fast_path_partial_update_C6 sampleEnv (fun _ => 0) okSt smallArr none
     ⟨smallArr, smallArr, true⟩ .luminance (by decide) rfl (by decide) rfl rfl
     (fun _ => rfl) rfl⟩

end VispyTexture
